import Mathlib

/-!
Shallow embedding of the analysis-request orchestration core of the
hairlinescan repository, from `src/src/hooks/useAnalysis.ts` and
`src/src/types/analysis.ts`.

The hook's `analyze` closure is modelled as a pure function from an
environment (the outcomes of the platform calls it makes: `Date.now`,
`compressPhoto` via canvas, `fetch`, `Math.random`, and the
JSON/regex processing of a 2xx response body) and a state record (the
React state flags, the `inFlightRef`, the `lastRequestRef`, and the
`localStorage` cooldown key) to a new state, an optional
`AnalysisResult`, and a trace of the externally visible calls it
issued (cooldown-timestamp write, per-photo compression, network
request), in program order.
-/

namespace HairlineScan

/-- Constant from useAnalysis.ts line 6: `1.5 * 1024 * 1024` bytes. -/
def MAX_PAYLOAD_SIZE : ℕ := 1572864

/-- Constant from useAnalysis.ts line 7. It is defined in the source but
never referenced by any code. -/
def MAX_RETRIES : ℕ := 3

/-- Constant from useAnalysis.ts line 8. It is defined in the source but
never referenced by any code. -/
def RETRY_DELAYS : List ℕ := [2000, 4000, 8000]

/-- Constant from useAnalysis.ts line 10: 20 seconds in milliseconds. -/
def MIN_COOLDOWN_MS : ℕ := 20000

/-- The `ErrorType` union from useAnalysis.ts line 13. -/
inductive ErrorType where
  | payload_too_large
  | rate_limit
  | server_error
  | network_error
  | cooldown
deriving DecidableEq, Repr

/-- `CapturedPhotos` from CaptureScreen.tsx: three nullable data-URL slots. -/
structure CapturedPhotos where
  front : Option String
  left : Option String
  right : Option String
deriving DecidableEq, Repr

/-- `QuestionnaireData` from Questionnaire.tsx: five string fields. -/
structure QuestionnaireData where
  ageRange : String
  timeframe : String
  familyHistory : String
  shedding : String
  scalpIssues : String
deriving DecidableEq, Repr

/-- One element of `general_options` in `AnalysisResult`. -/
structure OptionGroup where
  title : String
  bullets : List String
deriving DecidableEq, Repr

/-- `AnalysisResult` from src/src/types/analysis.ts. Numbers are modelled
as rationals. -/
structure AnalysisResult where
  score : ℚ
  confidence : ℚ
  summary : String
  observations : List String
  likely_patterns : List String
  general_options : List OptionGroup
  when_to_see_a_dermatologist : List String
  disclaimer : String
deriving DecidableEq, Repr

/-- JavaScript `Math.round` for the nonnegative values used here:
round half up, i.e. the floor of `x + 1/2`. -/
def jsRound (x : ℚ) : ℤ := ⌊x + 1/2⌋

/-- JavaScript `String.prototype.split(',')` on the character list of a
string: every comma separates two (possibly empty) segments. -/
def splitOnComma : List Char → List (List Char)
  | [] => [[]]
  | c :: cs =>
    let r := splitOnComma cs
    if c = ',' then [] :: r
    else
      match r with
      | [] => [[c]]
      | g :: gs => (c :: g) :: gs

/-- `getDataUrlSize` from useAnalysis.ts lines 61-64:
`Math.ceil((base64.length * 3) / 4)` where `base64` is
`dataUrl.split(',')[1] || ''`, the segment between the first and second
comma (empty when there is no comma). -/
def getDataUrlSize (dataUrl : String) : ℕ :=
  let base64 := ((splitOnComma dataUrl.toList).get? 1).getD []
  (base64.length * 3 + 3) / 4

/-- `generateFallbackResult` from useAnalysis.ts lines 67-93, with the
single `Math.random()` draw passed in as `r`. The score is
`Math.round((2 + r * 5) * 10) / 10`; every other field is a fixed
literal. -/
def generateFallbackResult (r : ℚ) : AnalysisResult :=
  let score : ℚ := 2 + r * 5
  { score := (jsRound (score * 10) : ℚ) / 10
    confidence := 0
    summary := "AI analysis was unavailable. This is a simulated demo result for illustration purposes only."
    observations := [
      "Unable to perform AI analysis - showing demo data",
      "For accurate assessment, please try again or consult a dermatologist"]
    likely_patterns := ["Demo result - no real analysis performed"]
    general_options := [
      { title := "Consult a Professional"
        bullets := [
          "This demo result cannot provide real insights",
          "Schedule an appointment with a dermatologist for proper evaluation"] }]
    when_to_see_a_dermatologist := [
      "Anytime you have concerns about hair loss",
      "When you notice sudden or patchy hair loss"]
    disclaimer := "FALLBACK DEMO RESULT: AI analysis was unavailable. This is not a real analysis. Please consult a dermatologist for any hair loss concerns." }

/-- Outcome classes of the 2xx response-body processing in useAnalysis.ts
lines 284-352. The processing itself (`response.json()`, joining the
candidate parts, stripping markdown fences, `JSON.parse`) runs on the
platform JSON and regex engines, so the environment supplies which of the
source's four branches it takes:
`throws` for an exception from `response.json()` or `JSON.parse`
(rethrown by the inner catch at lines 359-363);
`noText` for an empty extracted text (line 292), carrying `finishReason`;
`truncated` for `finishReason === MAX_TOKENS` with nonempty text
(line 305); `success` carrying the parsed fields after the `??` defaults
of lines 327-330 and before the clamping done in the source itself. -/
inductive OkBody where
  | throws (msg : String)
  | noText (finishReason : Option String)
  | truncated
  | success (score confidence : ℚ) (summary : String) (tags : List String)
deriving Repr

/-- Outcome of one `fetch` call: a 2xx response with a body, a non-ok
HTTP status with its error text, or a thrown transport error. -/
inductive FetchOutcome where
  | ok (body : OkBody)
  | httpError (status : ℕ) (errorData : String)
  | transportError (msg : String)
deriving Repr

/-- Environment of one `analyze` call: the platform behaviour it observes.
`now` is `Date.now()`; `compress` is the outcome of `compressPhoto` per
input photo (`Except.error` when the promise rejects); `apiKeyConfigured`
models whether `VITE_GEMINI_API_KEY` is set; `fetch n` is the outcome of
the n-th network call the execution would issue; `rand` is the
`Math.random()` draw used by `generateFallbackResult`. -/
structure Env where
  now : ℕ
  compress : String → Except String String
  apiKeyConfigured : Bool
  fetch : ℕ → FetchOutcome
  rand : ℚ

/-- Observable state of the hook: the React state flags of lines 115-121,
the `inFlightRef` of line 123, the `lastRequestRef` of line 124, and the
`localStorage` cooldown record (0 when absent, matching
`getLastAnalyzeAt`). -/
structure AnalysisState where
  isAnalyzing : Bool
  error : Option String
  errorType : Option ErrorType
  usedFallback : Bool
  usedSinglePhoto : Bool
  rateLimitWait : ℕ
  inFlight : Bool
  lastRequest : Option (CapturedPhotos × QuestionnaireData)
  lastAnalyzeAt : ℕ
deriving Repr

/-- The hook's initial state. -/
def initialState : AnalysisState :=
  { isAnalyzing := false, error := none, errorType := none
    usedFallback := false, usedSinglePhoto := false, rateLimitWait := 0
    inFlight := false, lastRequest := none, lastAnalyzeAt := 0 }

/-- Externally visible calls issued by one `analyze` execution, in program
order: the cooldown-timestamp write of line 189, one `compressPhoto`
call per present photo (line 204), and the `fetch` of line 255 carrying
the data URL embedded in the request body and the prompt text. -/
inductive Event where
  | cooldownWrite (t : ℕ)
  | compressCall (photo : String)
  | networkCall (photoDataUrl : String) (userText : String)
deriving DecidableEq, Repr

/-- Whether an event is a network call. -/
def isNetworkCall : Event → Bool
  | Event.networkCall _ _ => true
  | _ => false

/-- Number of network calls in a trace. -/
def networkCalls (tr : List Event) : ℕ := (tr.filter isNetworkCall).length

/-- JavaScript `x || "NA"` on a string: empty is falsy. -/
def orNA (s : String) : String := if s = "" then "NA" else s

/-- The prompt text of useAnalysis.ts line 238. -/
def userText (q : QuestionnaireData) : String :=
  "Analyze hairline photo. Return JSON with: score (0-10), confidence (0-1), summary (max 80 chars), tags (array of 1-3 strings). Age:"
    ++ orNA q.ageRange ++ " Timeframe:" ++ orNA q.timeframe

/-- The successful-parse result construction of useAnalysis.ts lines
327-352: clamp score into [0,10] and confidence into [0,1], truncate the
summary to 260 characters, keep at most 3 tags, and build the fixed
result shell around them. -/
def buildResult (scoreRaw confRaw : ℚ) (summaryRaw : String) (tagsRaw : List String) :
    AnalysisResult :=
  let score := max 0 (min 10 scoreRaw)
  let confidence := max 0 (min 1 confRaw)
  let summary := summaryRaw.take 260
  let tags := tagsRaw.take 3
  { score := score
    confidence := confidence
    summary := summary
    observations :=
      ((tags.map (fun t => "Photo may suggest: " ++ t ++ ".")) ++
        ["Lighting/angle can affect how dense the hair appears in photos."]).take 4
    likely_patterns :=
      if tags.isEmpty then
        ["Temple recession may be present", "Hairline density may vary with lighting"]
      else tags
    general_options := [
      { title := "Basics"
        bullets := [
          "Consistent monthly photos (same lighting/angle).",
          "Sleep, protein, stress management.",
          "Avoid traction/harsh styling if relevant."] },
      { title := "Common options (educational)"
        bullets := [
          "Topical minoxidil is commonly discussed.",
          "Ketoconazole shampoo is used by some for scalp health.",
          "Microneedling is discussed by some users (be cautious)."] },
      { title := "When to escalate"
        bullets := [
          "Rapid changes or irritation.",
          "If you want diagnosis/personal plan.",
          "Bring your photo timeline to a dermatologist."] }]
    when_to_see_a_dermatologist := [
      "Sudden or rapidly worsening shedding over weeks.",
      "Patchy loss, pain, redness, significant flaking/itch.",
      "Any concern where you want diagnosis/treatment guidance."]
    disclaimer := "Educational only — not medical advice or a diagnosis. Photo-based observations are limited. Consult a board-certified dermatologist for concerns." }

/-- The photo list of useAnalysis.ts line 192:
`[photos.front, photos.left, photos.right].filter(Boolean)`. JavaScript
`Boolean` drops both `null` slots and empty strings. -/
def photoArrayOf (photos : CapturedPhotos) : List String :=
  ([photos.front, photos.left, photos.right].filterMap id).filter (fun s => s != "")

/-- `Promise.all(photoArray.map(compressPhoto))` of useAnalysis.ts lines
204-206: compress every photo; any rejection rejects the whole batch. -/
def compressAll (env : Env) : List String → Except String (List String)
  | [] => Except.ok []
  | p :: ps =>
    match env.compress p with
    | Except.error e => Except.error e
    | Except.ok c =>
      match compressAll env ps with
      | Except.error e => Except.error e
      | Except.ok cs => Except.ok (c :: cs)

/-- The state after the guards pass: lock acquired, analyzing flag set,
all prior error/fallback/single-photo flags cleared, rate-limit wait
reset, request memoised, and the cooldown timestamp written
(useAnalysis.ts lines 179-189). -/
def lockedState (env : Env) (st : AnalysisState) (photos : CapturedPhotos)
    (q : QuestionnaireData) : AnalysisState :=
  { st with
    inFlight := true, isAnalyzing := true
    error := none, errorType := none
    usedFallback := false, usedSinglePhoto := false
    rateLimitWait := 0
    lastRequest := some (photos, q)
    lastAnalyzeAt := env.now }

/-- The body of `analyze` after both guards have passed and the lock,
flag resets, memo and cooldown write of lines 179-189 have been applied
to produce `st1`; covers useAnalysis.ts lines 191-376 (the outer try
block, whose catch at 365-376 yields the fallback path). The returned
trace holds the compression and network events of this part. -/
def analyzeBody (env : Env) (st1 : AnalysisState) (photos : CapturedPhotos)
    (q : QuestionnaireData) : AnalysisState × Option AnalysisResult × List Event :=
  let photoArray : List String := photoArrayOf photos
  if photoArray.isEmpty then
    ({ st1 with
       error := some "No photos to analyze"
       errorType := some ErrorType.network_error
       inFlight := false, isAnalyzing := false }, none, [])
  else
    let trC : List Event := photoArray.map Event.compressCall
    match compressAll env photoArray with
    | Except.error _ =>
      ({ st1 with
         error := some "AI analysis unavailable — showing demo result"
         errorType := some ErrorType.network_error
         usedFallback := true
         inFlight := false, isAnalyzing := false },
       some (generateFallbackResult env.rand), trC)
    | Except.ok compressedPhotos =>
      let totalSize := (compressedPhotos.map getDataUrlSize).sum
      let photosToSend :=
        if MAX_PAYLOAD_SIZE < totalSize then [compressedPhotos.headI] else compressedPhotos
      let st2 :=
        if MAX_PAYLOAD_SIZE < totalSize then { st1 with usedSinglePhoto := true } else st1
      if env.apiKeyConfigured = false then
        ({ st2 with
           error := some "Gemini API key not configured. Please add VITE_GEMINI_API_KEY to your .env file"
           errorType := some ErrorType.server_error
           inFlight := false, isAnalyzing := false }, none, trC)
      else
        let photoDataUrl := photosToSend.headI
        let trN := trC ++ [Event.networkCall photoDataUrl (userText q)]
        match env.fetch 0 with
        | FetchOutcome.transportError _ =>
          ({ st2 with
             error := some "AI analysis unavailable — showing demo result"
             errorType := some ErrorType.network_error
             usedFallback := true
             inFlight := false, isAnalyzing := false },
           some (generateFallbackResult env.rand), trN)
        | FetchOutcome.httpError status errorData =>
          if status = 429 then
            ({ st2 with
               rateLimitWait := 60
               error := some "Rate limit exceeded. Try again in 60s."
               errorType := some ErrorType.rate_limit
               inFlight := false, isAnalyzing := false }, none, trN)
          else
            ({ st2 with
               error := some ("Gemini API Error " ++ toString status ++ ": " ++ errorData.take 200)
               errorType := some ErrorType.server_error
               inFlight := false, isAnalyzing := false }, none, trN)
        | FetchOutcome.ok body =>
          match body with
          | OkBody.throws _ =>
            ({ st2 with
               error := some "AI analysis unavailable — showing demo result"
               errorType := some ErrorType.network_error
               usedFallback := true
               inFlight := false, isAnalyzing := false },
             some (generateFallbackResult env.rand), trN)
          | OkBody.noText finishReason =>
            ({ st2 with
               error := some ("No response from Gemini. Reason: " ++ finishReason.getD "unknown")
               errorType := some ErrorType.server_error
               inFlight := false, isAnalyzing := false }, none, trN)
          | OkBody.truncated =>
            ({ st2 with
               error := some "AI response was truncated. Please try again."
               errorType := some ErrorType.server_error
               inFlight := false, isAnalyzing := false }, none, trN)
          | OkBody.success sc cf summaryRaw tags =>
            ({ st2 with inFlight := false, isAnalyzing := false },
             some (buildResult sc cf summaryRaw tags), trN)

/-- The `analyze` entry point of useAnalysis.ts lines 158-377. Guard
order mirrors the source: the single-flight re-entry check of line 163
(silent `null`), then the cooldown check of lines 169-176 (cooldown
error, no lock, no timestamp write), then the lock acquisition, flag
resets, memo capture and cooldown-timestamp write of lines 179-189,
then the body. -/
def analyze (env : Env) (st : AnalysisState) (photos : CapturedPhotos)
    (q : QuestionnaireData) : AnalysisState × Option AnalysisResult × List Event :=
  if st.inFlight || st.isAnalyzing then (st, none, [])
  else
    if (env.now : ℤ) - (st.lastAnalyzeAt : ℤ) < (MIN_COOLDOWN_MS : ℤ) then
      ({ st with
         error := some ("Please wait "
           ++ toString
             ⌈((((MIN_COOLDOWN_MS : ℤ) - ((env.now : ℤ) - (st.lastAnalyzeAt : ℤ)) : ℤ) : ℚ)) / 1000⌉
           ++ "s before trying again")
         errorType := some ErrorType.cooldown }, none, [])
    else
      let out := analyzeBody env (lockedState env st photos q) photos q
      (out.1, out.2.1, Event.cooldownWrite env.now :: out.2.2)

/-! Concrete scenarios used to evaluate the model. -/

/-- A small well-formed JPEG data URL (base64 payload of 4 characters). -/
def photoA : String := "data:image/jpeg;base64,AAAA"

/-- Compression that returns its input unchanged: every `compressPhoto`
promise resolves. -/
def okCompress : String → Except String String := fun s => Except.ok s

/-- An environment with the cooldown satisfied (`Date.now()` is exactly
the minimum interval after the stored timestamp 0), successful
compression, a configured API key, and the given endpoint behaviour. -/
def envOf (f : ℕ → FetchOutcome) : Env :=
  { now := 20000, compress := okCompress, apiKeyConfigured := true, fetch := f, rand := 0 }

/-- An endpoint answering HTTP 503 on every attempt. -/
def env503 : Env := envOf (fun _ => FetchOutcome.httpError 503 "Service Unavailable")

/-- An endpoint answering HTTP 413 (request entity too large) on every
attempt. -/
def env413 : Env := envOf (fun _ => FetchOutcome.httpError 413 "Request Entity Too Large")

/-- An endpoint answering HTTP 500 on every attempt. -/
def env500 : Env := envOf (fun _ => FetchOutcome.httpError 500 "Internal Server Error")

/-- A capture with only the front slot present. -/
def photos1 : CapturedPhotos := { front := some photoA, left := none, right := none }

/-- An all-empty questionnaire. -/
def q0 : QuestionnaireData :=
  { ageRange := "", timeframe := "", familyHistory := "", shedding := "", scalpIssues := "" }

/-- A data URL whose base64 payload is 4000000 characters, so its
`getDataUrlSize` is 3000000 bytes, above the 1.5 MB ceiling. -/
def bigPhoto : String := String.mk (',' :: List.replicate 4000000 'A')

/-- A capture with only the front slot present, holding `bigPhoto`. -/
def photosBig : CapturedPhotos := { front := some bigPhoto, left := none, right := none }

/-- A capture with three distinct small photos. -/
def photos3 : CapturedPhotos :=
  { front := some "data:image/jpeg;base64,FFFF"
    left := some "data:image/jpeg;base64,LLLL"
    right := some "data:image/jpeg;base64,RRRR" }

/-- A state with another `analyze` execution in flight. -/
def stBusy : AnalysisState := { initialState with inFlight := true }

/-- An environment observed 10 simulated seconds after the stored
cooldown timestamp 0: inside the 20-second cooldown window. -/
def envCool : Env := { env503 with now := 10000 }

/-! Helper lemmas. -/

set_option maxRecDepth 8000

/-- When both guards pass, `analyze` runs the body on the locked state
and prepends the cooldown-timestamp write to the trace. -/
theorem analyze_accepted (env : Env) (st : AnalysisState) (photos : CapturedPhotos)
    (q : QuestionnaireData) (h1 : st.inFlight = false) (h2 : st.isAnalyzing = false)
    (h3 : ¬ ((env.now : ℤ) - (st.lastAnalyzeAt : ℤ) < (MIN_COOLDOWN_MS : ℤ))) :
    analyze env st photos q =
      ((analyzeBody env (lockedState env st photos q) photos q).1,
       (analyzeBody env (lockedState env st photos q) photos q).2.1,
       Event.cooldownWrite env.now ::
         (analyzeBody env (lockedState env st photos q) photos q).2.2) := by
  unfold analyze
  rw [h1, h2]
  simp only [Bool.or_self, Bool.false_eq_true, if_false]
  rw [if_neg h3]

/-- No branch of the body touches the stored cooldown timestamp. -/
theorem analyzeBody_lastAnalyzeAt (env : Env) (st1 : AnalysisState)
    (photos : CapturedPhotos) (q : QuestionnaireData) :
    (analyzeBody env st1 photos q).1.lastAnalyzeAt = st1.lastAnalyzeAt := by
  simp only [analyzeBody]
  repeat' split
  all_goals rfl

/-- Compression events are not network calls. -/
theorem filter_isNetworkCall_compress (l : List String) :
    (l.map Event.compressCall).filter isNetworkCall = [] := by
  induction l with
  | nil => rfl
  | cons a t ih => simp [isNetworkCall, List.filter, ih]

/-- A successful batch compression of a nonempty list starts with the
compression of its first element. -/
theorem compressAll_head (env : Env) (l cp : List String)
    (h : compressAll env l = Except.ok cp) (hne : l ≠ []) :
    env.compress l.headI = Except.ok cp.headI := by
  cases l with
  | nil => exact absurd rfl hne
  | cons a as =>
    simp only [compressAll] at h
    cases ha : env.compress a with
    | error e => rw [ha] at h; simp at h
    | ok c =>
      rw [ha] at h
      cases hrest : compressAll env as with
      | error e => rw [hrest] at h; simp at h
      | ok cs =>
        rw [hrest] at h
        simp only [Except.ok.injEq] at h
        subst h
        simpa using ha

/-! Claim theorems. -/

/-- C4: an `analyze()` call issued while another call holds the
single-flight lock returns `none` immediately, leaves the entire state
(including the error fields and the prior call's flags) untouched, and
issues no compression or network call at all (empty trace). -/
theorem analyze_single_flight_reject (env : Env) (st : AnalysisState)
    (photos : CapturedPhotos) (q : QuestionnaireData) (h : st.inFlight = true) :
    analyze env st photos q = (st, none, []) := by
  unfold analyze
  rw [h]
  simp

/-- Witness for C4 at a concrete busy state. -/
theorem analyze_single_flight_reject_witness :
    stBusy.inFlight = true ∧ analyze env503 stBusy photos1 q0 = (stBusy, none, []) :=
  ⟨rfl, analyze_single_flight_reject env503 stBusy photos1 q0 rfl⟩

/-- C5: an `analyze()` call issued less than 20 seconds (MIN_COOLDOWN_MS)
after the stored timestamp of the previous accepted call is rejected with
a `cooldown` error carrying the remaining wait in whole seconds
(rounded up); the returned state differs from the prior one only in the
error fields, so the single-flight lock is not acquired and the stored
cooldown timestamp is not overwritten, and the empty trace shows that no
compression and no network call happened. -/
theorem analyze_cooldown_reject (env : Env) (st : AnalysisState)
    (photos : CapturedPhotos) (q : QuestionnaireData)
    (h1 : st.inFlight = false) (h2 : st.isAnalyzing = false)
    (h3 : (env.now : ℤ) - (st.lastAnalyzeAt : ℤ) < (MIN_COOLDOWN_MS : ℤ)) :
    analyze env st photos q =
      ({ st with
         error := some ("Please wait "
           ++ toString
             ⌈((((MIN_COOLDOWN_MS : ℤ) - ((env.now : ℤ) - (st.lastAnalyzeAt : ℤ)) : ℤ) : ℚ)) / 1000⌉
           ++ "s before trying again")
         errorType := some ErrorType.cooldown }, none, []) := by
  unfold analyze
  rw [h1, h2]
  simp only [Bool.or_self, Bool.false_eq_true, if_false]
  rw [if_pos h3]

/-- Witness for C5: a call 10 simulated seconds after the previous one. -/
theorem analyze_cooldown_reject_witness :
    ((envCool.now : ℤ) - (initialState.lastAnalyzeAt : ℤ) < (MIN_COOLDOWN_MS : ℤ)) ∧
    analyze envCool initialState photos1 q0 =
      ({ initialState with
         error := some ("Please wait "
           ++ toString
             ⌈((((MIN_COOLDOWN_MS : ℤ) - ((envCool.now : ℤ) - (initialState.lastAnalyzeAt : ℤ)) : ℤ) : ℚ)) / 1000⌉
           ++ "s before trying again")
         errorType := some ErrorType.cooldown }, none, []) :=
  ⟨by decide, analyze_cooldown_reject envCool initialState photos1 q0 rfl rfl (by decide)⟩

/-- C6: in every accepted `analyze()` execution the cooldown timestamp is
written (both into durable storage, visible as `lastAnalyzeAt` of the
final state, and as the first event of the trace) strictly before any
network call: every network-call event in the trace has a
cooldown-write event at an earlier index. -/
theorem analyze_cooldown_write_precedes_network (env : Env) (st : AnalysisState)
    (photos : CapturedPhotos) (q : QuestionnaireData)
    (h1 : st.inFlight = false) (h2 : st.isAnalyzing = false)
    (h3 : ¬ ((env.now : ℤ) - (st.lastAnalyzeAt : ℤ) < (MIN_COOLDOWN_MS : ℤ))) :
    (analyze env st photos q).1.lastAnalyzeAt = env.now ∧
    (analyze env st photos q).2.2.head? = some (Event.cooldownWrite env.now) ∧
    ∀ i u v, (analyze env st photos q).2.2.get? i = some (Event.networkCall u v) →
      ∃ j, j < i ∧ (analyze env st photos q).2.2.get? j = some (Event.cooldownWrite env.now) := by
  rw [analyze_accepted env st photos q h1 h2 h3]
  refine ⟨?_, rfl, ?_⟩
  · rw [analyzeBody_lastAnalyzeAt]
    rfl
  · intro i u v hi
    cases i with
    | zero => simp at hi
    | succ n => exact ⟨0, Nat.succ_pos n, rfl⟩

/-- Witness for C6 at a concrete accepted execution. -/
theorem analyze_cooldown_write_precedes_network_witness :
    (¬ ((env503.now : ℤ) - (initialState.lastAnalyzeAt : ℤ) < (MIN_COOLDOWN_MS : ℤ))) ∧
    ((analyze env503 initialState photos1 q0).1.lastAnalyzeAt = env503.now ∧
     (analyze env503 initialState photos1 q0).2.2.head? = some (Event.cooldownWrite env503.now) ∧
     ∀ i u v, (analyze env503 initialState photos1 q0).2.2.get? i
         = some (Event.networkCall u v) →
       ∃ j, j < i ∧ (analyze env503 initialState photos1 q0).2.2.get? j
         = some (Event.cooldownWrite env503.now)) :=
  ⟨by decide,
   analyze_cooldown_write_precedes_network env503 initialState photos1 q0 rfl rfl (by decide)⟩

/-- C7: an accepted `analyze()` call whose request is answered with a 413
or 429 status returns no result, surfaces an error, and never produces a
fallback: `usedFallback` stays false. (The statements hold for every
non-2xx status; the 413/429 hypothesis states the claim's scope.) -/
theorem analyze_413_429_never_fallback (env : Env) (st : AnalysisState)
    (photos : CapturedPhotos) (q : QuestionnaireData) (cp : List String)
    (status : ℕ) (d : String)
    (h1 : st.inFlight = false) (h2 : st.isAnalyzing = false)
    (h3 : ¬ ((env.now : ℤ) - (st.lastAnalyzeAt : ℤ) < (MIN_COOLDOWN_MS : ℤ)))
    (hne : (photoArrayOf photos).isEmpty = false)
    (hcp : compressAll env (photoArrayOf photos) = Except.ok cp)
    (hkey : env.apiKeyConfigured = true)
    (hf : env.fetch 0 = FetchOutcome.httpError status d)
    (hstat : status = 413 ∨ status = 429) :
    (analyze env st photos q).2.1 = none ∧
    (analyze env st photos q).1.usedFallback = false ∧
    (analyze env st photos q).1.error.isSome = true := by
  rw [analyze_accepted env st photos q h1 h2 h3]
  simp only [analyzeBody, hne, hcp, hkey, hf]
  repeat' split
  all_goals simp_all [lockedState]

/-- Witness for C7: a 413 answer on a concrete accepted call. -/
theorem analyze_413_429_never_fallback_witness :
    (env413.fetch 0 = FetchOutcome.httpError 413 "Request Entity Too Large") ∧
    ((analyze env413 initialState photos1 q0).2.1 = none ∧
     (analyze env413 initialState photos1 q0).1.usedFallback = false ∧
     (analyze env413 initialState photos1 q0).1.error.isSome = true) :=
  ⟨rfl, analyze_413_429_never_fallback env413 initialState photos1 q0 [photoA]
    413 "Request Entity Too Large" rfl rfl (by decide) rfl rfl rfl rfl (Or.inl rfl)⟩

/-- Helper for the oversize witness: `bigPhoto.toList` literally. -/
theorem bigPhoto_toList : bigPhoto.toList = ',' :: List.replicate 4000000 'A' := rfl

/-- Splitting a list starting with a comma. -/
theorem splitOnComma_comma_cons (l : List Char) :
    splitOnComma (',' :: l) = [] :: splitOnComma l := rfl

/-- A comma-free run is one single segment. -/
theorem splitOnComma_replicate_A (n : ℕ) :
    splitOnComma (List.replicate n 'A') = [List.replicate n 'A'] := by
  induction n with
  | zero => rfl
  | succ k ih =>
    rw [List.replicate_succ]
    rw [show splitOnComma ('A' :: List.replicate k 'A')
        = match splitOnComma (List.replicate k 'A') with
          | [] => [['A']]
          | g :: gs => ('A' :: g) :: gs from rfl]
    rw [ih]

/-- Size of a data URL whose payload is an n-character comma-free run. -/
theorem getDataUrlSize_comma_replicate (n : ℕ) :
    getDataUrlSize (String.mk (',' :: List.replicate n 'A')) = (n * 3 + 3) / 4 := by
  simp only [getDataUrlSize]
  rw [show (String.mk (',' :: List.replicate n 'A')).toList
      = ',' :: List.replicate n 'A' from rfl]
  rw [splitOnComma_comma_cons, splitOnComma_replicate_A]
  simp

/-- `bigPhoto` measures 3000000 bytes. -/
theorem getDataUrlSize_bigPhoto : getDataUrlSize bigPhoto = 3000000 := by
  rw [show bigPhoto = String.mk (',' :: List.replicate 4000000 'A') from rfl]
  rw [getDataUrlSize_comma_replicate]

/-- The photo array of `photosBig` is the single big photo. -/
theorem photoArrayOf_photosBig : photoArrayOf photosBig = [bigPhoto] := by rfl

/-- The single big photo exceeds the payload ceiling. -/
theorem bigPhoto_oversize :
    MAX_PAYLOAD_SIZE < (([bigPhoto] : List String).map getDataUrlSize).sum := by
  rw [List.map_cons, List.map_nil, getDataUrlSize_bigPhoto]
  norm_num [MAX_PAYLOAD_SIZE]

/-- C8: in an accepted `analyze()` call whose compressed photos together
exceed the 1.5 MB ceiling, `usedSinglePhoto` is set, the trace contains
exactly one network call, and the data URL it carries is the compression
of the first present photo in front > left > right priority (the head of
`photoArrayOf`). -/
theorem analyze_oversize_single_photo (env : Env) (st : AnalysisState)
    (photos : CapturedPhotos) (q : QuestionnaireData) (cp : List String)
    (h1 : st.inFlight = false) (h2 : st.isAnalyzing = false)
    (h3 : ¬ ((env.now : ℤ) - (st.lastAnalyzeAt : ℤ) < (MIN_COOLDOWN_MS : ℤ)))
    (hne : (photoArrayOf photos).isEmpty = false)
    (hcp : compressAll env (photoArrayOf photos) = Except.ok cp)
    (hsum : MAX_PAYLOAD_SIZE < (cp.map getDataUrlSize).sum)
    (hkey : env.apiKeyConfigured = true) :
    (analyze env st photos q).1.usedSinglePhoto = true ∧
    (analyze env st photos q).2.2.filter isNetworkCall
      = [Event.networkCall cp.headI (userText q)] ∧
    env.compress ((photoArrayOf photos).headI) = Except.ok cp.headI := by
  have hnil : photoArrayOf photos ≠ [] := by
    intro h
    rw [h] at hne
    simp at hne
  rw [analyze_accepted env st photos q h1 h2 h3]
  refine ⟨?_, ?_, compressAll_head env _ cp hcp hnil⟩
  · simp only [analyzeBody, hne, hcp, hkey, if_pos hsum]
    repeat' split
    all_goals simp_all [lockedState]
  · simp only [analyzeBody, hne, hcp, hkey, if_pos hsum]
    repeat' split
    all_goals simp_all [List.filter, isNetworkCall, List.filter_append,
      filter_isNetworkCall_compress]

/-- Witness for C8: the 3 MB `bigPhoto` forces the single-photo path. -/
theorem analyze_oversize_single_photo_witness :
    MAX_PAYLOAD_SIZE < (([bigPhoto] : List String).map getDataUrlSize).sum ∧
    ((analyze env503 initialState photosBig q0).1.usedSinglePhoto = true ∧
     (analyze env503 initialState photosBig q0).2.2.filter isNetworkCall
       = [Event.networkCall ([bigPhoto] : List String).headI (userText q0)] ∧
     env503.compress ((photoArrayOf photosBig).headI)
       = Except.ok ([bigPhoto] : List String).headI) :=
  ⟨bigPhoto_oversize,
   analyze_oversize_single_photo env503 initialState photosBig q0 [bigPhoto] rfl rfl
     (by decide)
     (by rw [photoArrayOf_photosBig]; rfl)
     (by rw [photoArrayOf_photosBig]; rfl)
     bigPhoto_oversize
     rfl⟩

/-- C10: in an accepted `analyze()` call that reaches the request, even
when the combined compressed payload is within the 1.5 MB ceiling and
several photos are present, the trace contains exactly one network call
carrying only the first compressed photo (front > left > right
priority), and `usedSinglePhoto` stays false. -/
theorem analyze_sends_only_first_photo (env : Env) (st : AnalysisState)
    (photos : CapturedPhotos) (q : QuestionnaireData) (cp : List String)
    (h1 : st.inFlight = false) (h2 : st.isAnalyzing = false)
    (h3 : ¬ ((env.now : ℤ) - (st.lastAnalyzeAt : ℤ) < (MIN_COOLDOWN_MS : ℤ)))
    (hne : (photoArrayOf photos).isEmpty = false)
    (hcp : compressAll env (photoArrayOf photos) = Except.ok cp)
    (hsum : ¬ MAX_PAYLOAD_SIZE < (cp.map getDataUrlSize).sum)
    (hkey : env.apiKeyConfigured = true) :
    (analyze env st photos q).1.usedSinglePhoto = false ∧
    (analyze env st photos q).2.2.filter isNetworkCall
      = [Event.networkCall cp.headI (userText q)] ∧
    env.compress ((photoArrayOf photos).headI) = Except.ok cp.headI := by
  have hnil : photoArrayOf photos ≠ [] := by
    intro h
    rw [h] at hne
    simp at hne
  rw [analyze_accepted env st photos q h1 h2 h3]
  refine ⟨?_, ?_, compressAll_head env _ cp hcp hnil⟩
  · simp only [analyzeBody, hne, hcp, hkey, if_neg hsum]
    repeat' split
    all_goals simp_all [lockedState]
  · simp only [analyzeBody, hne, hcp, hkey, if_neg hsum]
    repeat' split
    all_goals simp_all [List.filter, isNetworkCall, List.filter_append,
      filter_isNetworkCall_compress]

/-- Witness for C10: three small photos, front photo sent alone. -/
theorem analyze_sends_only_first_photo_witness :
    (¬ MAX_PAYLOAD_SIZE <
        ((["data:image/jpeg;base64,FFFF", "data:image/jpeg;base64,LLLL",
           "data:image/jpeg;base64,RRRR"].map getDataUrlSize).sum)) ∧
    ((analyze env503 initialState photos3 q0).1.usedSinglePhoto = false ∧
     (analyze env503 initialState photos3 q0).2.2.filter isNetworkCall
       = [Event.networkCall (["data:image/jpeg;base64,FFFF", "data:image/jpeg;base64,LLLL",
           "data:image/jpeg;base64,RRRR"] : List String).headI (userText q0)] ∧
     env503.compress ((photoArrayOf photos3).headI)
       = Except.ok (["data:image/jpeg;base64,FFFF", "data:image/jpeg;base64,LLLL",
           "data:image/jpeg;base64,RRRR"] : List String).headI) :=
  ⟨by decide,
   analyze_sends_only_first_photo env503 initialState photos3 q0
     ["data:image/jpeg;base64,FFFF", "data:image/jpeg;base64,LLLL",
      "data:image/jpeg;base64,RRRR"] rfl rfl (by decide) rfl rfl (by decide) rfl⟩

/-- C9: for every draw of `Math.random()` in [0, 1), the fallback result
has confidence 0, a score in the fixed range [2, 7], a disclaimer that
contains the explicit marker that it is not a real analysis, a summary
containing the word simulated, and every field populated; being a total
function of the draw, the generator never fails and uses no network. -/
theorem generateFallbackResult_invariants (r : ℚ) (hr0 : 0 ≤ r) (hr1 : r < 1) :
    (generateFallbackResult r).confidence = 0 ∧
    2 ≤ (generateFallbackResult r).score ∧
    (generateFallbackResult r).score ≤ 7 ∧
    (∃ a b, (generateFallbackResult r).disclaimer
      = a ++ "This is not a real analysis." ++ b) ∧
    (∃ a b, (generateFallbackResult r).summary = a ++ "simulated" ++ b) ∧
    (generateFallbackResult r).summary ≠ "" ∧
    (generateFallbackResult r).observations ≠ [] ∧
    (generateFallbackResult r).likely_patterns ≠ [] ∧
    (generateFallbackResult r).general_options ≠ [] ∧
    (generateFallbackResult r).when_to_see_a_dermatologist ≠ [] ∧
    (generateFallbackResult r).disclaimer ≠ "" := by
  have hsc : (generateFallbackResult r).score
      = ((⌊(2 + r * 5) * 10 + 1/2⌋ : ℤ) : ℚ) / 10 := rfl
  have hlo : (20 : ℤ) ≤ ⌊(2 + r * 5) * 10 + 1/2⌋ := by
    apply Int.le_floor.mpr
    push_cast
    linarith
  have hhi : ⌊(2 + r * 5) * 10 + 1/2⌋ ≤ 70 := by
    have h71 : ⌊(2 + r * 5) * 10 + 1/2⌋ < 71 := by
      apply Int.floor_lt.mpr
      push_cast
      linarith
    omega
  refine ⟨rfl, ?_, ?_,
    ⟨"FALLBACK DEMO RESULT: AI analysis was unavailable. ",
     " Please consult a dermatologist for any hair loss concerns.", by rfl⟩,
    ⟨"AI analysis was unavailable. This is a ",
     " demo result for illustration purposes only.", by rfl⟩,
    by simp [generateFallbackResult], by simp [generateFallbackResult],
    by simp [generateFallbackResult], by simp [generateFallbackResult],
    by simp [generateFallbackResult], by simp [generateFallbackResult]⟩
  · rw [hsc, le_div_iff₀ (by norm_num : (0 : ℚ) < 10)]
    calc (2 : ℚ) * 10 = ((20 : ℤ) : ℚ) := by norm_num
    _ ≤ _ := by exact_mod_cast hlo
  · rw [hsc, div_le_iff₀ (by norm_num : (0 : ℚ) < 10)]
    calc ((⌊(2 + r * 5) * 10 + 1/2⌋ : ℤ) : ℚ) ≤ ((70 : ℤ) : ℚ) := by exact_mod_cast hhi
    _ = 7 * 10 := by norm_num

/-- Witness for C9 at the draw one half. -/
theorem generateFallbackResult_invariants_witness :
    (0 ≤ (1/2 : ℚ)) ∧ ((1/2 : ℚ) < 1) ∧
    ((generateFallbackResult (1/2)).confidence = 0 ∧
     2 ≤ (generateFallbackResult (1/2)).score ∧
     (generateFallbackResult (1/2)).score ≤ 7 ∧
     (∃ a b, (generateFallbackResult (1/2)).disclaimer
       = a ++ "This is not a real analysis." ++ b) ∧
     (∃ a b, (generateFallbackResult (1/2)).summary = a ++ "simulated" ++ b) ∧
     (generateFallbackResult (1/2)).summary ≠ "" ∧
     (generateFallbackResult (1/2)).observations ≠ [] ∧
     (generateFallbackResult (1/2)).likely_patterns ≠ [] ∧
     (generateFallbackResult (1/2)).general_options ≠ [] ∧
     (generateFallbackResult (1/2)).when_to_see_a_dermatologist ≠ [] ∧
     (generateFallbackResult (1/2)).disclaimer ≠ "") :=
  ⟨by norm_num, by norm_num,
   generateFallbackResult_invariants (1/2) (by norm_num) (by norm_num)⟩

/-- C1: evaluated against an endpoint that answers 503 on every attempt,
an accepted `analyze()` call issues exactly one network call (the
`MAX_RETRIES`/`RETRY_DELAYS` constants are defined but never used, so no
retry loop runs), returns `none` rather than a fallback result, leaves
`usedFallback` false, and surfaces `server_error`. This contradicts the
claimed 3 attempts with 2s/4s/8s backoff and fallback result. -/
theorem analyze_always_503_called_once :
    networkCalls (analyze env503 initialState photos1 q0).2.2 = 1 ∧
    (analyze env503 initialState photos1 q0).2.1 = none ∧
    (analyze env503 initialState photos1 q0).1.usedFallback = false ∧
    (analyze env503 initialState photos1 q0).1.errorType = some ErrorType.server_error ∧
    MAX_RETRIES = 3 ∧ RETRY_DELAYS = [2000, 4000, 8000] := by
  refine ⟨by decide, by decide, by decide, by decide, rfl, rfl⟩

/-- C2: evaluated against an endpoint answering 413, the call terminates
after one request with no retry and no fallback and returns to idle, but
the surfaced error classification is `server_error`, not the claimed
`payload_too_large` (which no code path ever assigns). -/
theorem analyze_413_surfaces_server_error :
    (analyze env413 initialState photos1 q0).1.errorType = some ErrorType.server_error ∧
    (analyze env413 initialState photos1 q0).1.errorType ≠ some ErrorType.payload_too_large ∧
    (analyze env413 initialState photos1 q0).2.1 = none ∧
    (analyze env413 initialState photos1 q0).1.usedFallback = false ∧
    (analyze env413 initialState photos1 q0).1.isAnalyzing = false ∧
    (analyze env413 initialState photos1 q0).1.inFlight = false ∧
    networkCalls (analyze env413 initialState photos1 q0).2.2 = 1 := by
  refine ⟨by decide, by decide, by decide, by decide, by decide, by decide, by decide⟩

/-- C3: evaluated against an endpoint answering 500, the endpoint is
called exactly once (consistent with the claim), but the call then
returns `none` with `usedFallback` still false and a `server_error`
classification — no fallback result is produced, contradicting the
claimed fallback resolution for remote-reported non-413/429/503
errors. -/
theorem analyze_500_returns_none_without_fallback :
    networkCalls (analyze env500 initialState photos1 q0).2.2 = 1 ∧
    (analyze env500 initialState photos1 q0).2.1 = none ∧
    (analyze env500 initialState photos1 q0).1.usedFallback = false ∧
    (analyze env500 initialState photos1 q0).1.errorType = some ErrorType.server_error := by
  refine ⟨by decide, by decide, by decide, by decide⟩

end HairlineScan
